import Mathlib

/-!
# Global settings repository (`internal/queries/global_settings_queries.go`)

A shallow embedding of the three operations of the settings repository
(`GetGlobalSettings`, `UpdateGlobalSettings`, `CreateDefaultGlobalSettings`)
and of the rebinding constructors, over an explicit model of the two external
stores the code talks to: the relational table `global_settings` and the
key-value cache.

The relational store is a list of rows.  Every SQL statement the code issues
is appended to a log together with the handle it was issued on, and receives
its outcome from an environment: either the statement fails with a driver
error (the table is then unchanged), or it runs, with the server clock value
that `NOW()` evaluates to.  Go errors are values with an identity (the
sentinel `sql.ErrNoRows`, other errors, `%w`-wrapped errors) and a message.
-/

namespace Queries

/-! ## Data model -/

/-- Modelled from the spec: the declaration of `models.GlobalSettings`
(package `internal/models` is not among the sources).  The fields are the ones
the queries scan and bind, with the types their literals have in
`CreateDefaultGlobalSettings`.  Timestamps are points on the server clock; the
zero value of a Go struct is `0`, `false`, `""`. -/
structure GlobalSettings where
  ID : String
  MaintenanceMode : Bool
  MaintenanceMessage : String
  MaxUsersPerOrganization : Int
  MaxSessionDuration : Int
  PasswordMinLength : Int
  RequireMFA : Bool
  AllowRegistration : Bool
  EmailVerificationReq : Bool
  TokenExpirationMinutes : Int
  AuditLogRetentionDays : Int
  Settings : String
  CreatedAt : Nat
  UpdatedAt : Nat
deriving DecidableEq, Repr

/-- Go `error` values as the code observes them: by identity (`err ==
sql.ErrNoRows`) and by message (`err.Error()`). -/
inductive GoError where
  /-- The sentinel `sql.ErrNoRows`, returned by `Row.Scan` when the query
  produced no row. -/
  | ErrNoRows : GoError
  /-- Any other error value coming out of the store, with its message. -/
  | driver (msg : String) : GoError
  /-- The value `fmt.Errorf(pre + "%w", inner)`. -/
  | wrap (pre : String) (inner : GoError) : GoError
deriving DecidableEq, Repr

/-- The method `Error()`: `sql.ErrNoRows` is
`errors.New("sql: no rows in result set")` in `database/sql`. -/
def GoError.Error : GoError → String
  | .ErrNoRows => "sql: no rows in result set"
  | .driver msg => msg
  | .wrap pre inner => pre ++ inner.Error

/-- The test `errors.Is(err, sql.ErrNoRows)`: the sentinel is reachable
through the chain of `%w` wrappers. -/
def GoError.isNoRows : GoError → Bool
  | .ErrNoRows => true
  | .driver _ => false
  | .wrap _ inner => inner.isNoRows

/-- The handle a statement is issued on: the connection `q.db` or the
transaction `q.tx`. -/
inductive Handle where
  | db (conn : Nat) : Handle
  | tx (txn : Nat) : Handle
deriving DecidableEq, Repr

/-- The three statements of the repository. -/
inductive Stmt where
  | SELECT : Stmt
  | UPDATE : Stmt
  | INSERT : Stmt
deriving DecidableEq, Repr

/-- One entry of the statement log: which statement went to which handle
under which context. -/
structure Issued where
  handle : Handle
  ctx : Nat
  stmt : Stmt
deriving DecidableEq, Repr

/-- One entry of the cache log: `client.Del(ctx, key)` and the error it
came back with (`none` when the deletion succeeded). -/
structure CacheOp where
  client : Nat
  ctx : Nat
  key : String
  err : Option String
deriving DecidableEq, Repr

/-- What the store does with one statement: it fails with a driver error, or
it runs with `NOW()` evaluating to `now`. -/
inductive Outcome where
  | fail (msg : String) : Outcome
  | run (now : Nat) : Outcome
deriving DecidableEq, Repr

/-- The environment of a call: the outcome of the `n`-th statement issued
since the log was empty, and the result of a cache deletion (`none` is
success, `some msg` an error). -/
structure Env where
  stmt : Nat → Outcome
  del : String → Option String

/-- The observable state: the rows of `global_settings`, the statements issued
so far, and the cache operations issued so far. -/
structure World where
  rows : List GlobalSettings
  issued : List Issued
  cache : List CacheOp
deriving DecidableEq, Repr

/-- The struct `globalSettingsQueries`: the connection, the transaction, the
context and the cache client are identifiers, `nil` is `none`. -/
structure globalSettingsQueries where
  db : Nat
  tx : Option Nat
  ctx : Nat
  redis : Option Nat
deriving DecidableEq, Repr

/-- The constructor `NewGlobalSettingsQueries`; `0` stands for
`context.Background()`. -/
def NewGlobalSettingsQueries (db : Nat) (redis : Option Nat) : globalSettingsQueries :=
  { db := db, tx := none, ctx := 0, redis := redis }

/-- The method `WithTx`: a fresh instance with the transaction replaced. -/
def WithTx (q : globalSettingsQueries) (tx : Option Nat) : globalSettingsQueries :=
  { db := q.db, tx := tx, ctx := q.ctx, redis := q.redis }

/-- The method `WithContext`: a fresh instance with the context replaced. -/
def WithContext (q : globalSettingsQueries) (ctx : Nat) : globalSettingsQueries :=
  { db := q.db, tx := q.tx, ctx := ctx, redis := q.redis }

/-! ## The relational store -/

/-- The branch `if q.tx != nil { q.tx.… } else { q.db.… }` that every
operation takes before issuing its statement. -/
def handleOf (q : globalSettingsQueries) : Handle :=
  match q.tx with
  | some t => Handle.tx t
  | none => Handle.db q.db

/-- The clause `ORDER BY created_at DESC LIMIT 1`: the first row, in table
order, among those of greatest creation time. -/
def selectLatest : List GlobalSettings → Option GlobalSettings
  | [] => none
  | r :: rest =>
    match selectLatest rest with
    | none => some r
    | some r2 => if r.CreatedAt < r2.CreatedAt then some r2 else some r

/-- The `SET` list of the `UPDATE`: every policy field and the extension blob
come from the parameters `$2..$12`, `updated_at` from `NOW()`; `id` and
`created_at` are not assigned. -/
def setFields (r p : GlobalSettings) (now : Nat) : GlobalSettings :=
  { r with
    MaintenanceMode := p.MaintenanceMode
    MaintenanceMessage := p.MaintenanceMessage
    MaxUsersPerOrganization := p.MaxUsersPerOrganization
    MaxSessionDuration := p.MaxSessionDuration
    PasswordMinLength := p.PasswordMinLength
    RequireMFA := p.RequireMFA
    AllowRegistration := p.AllowRegistration
    EmailVerificationReq := p.EmailVerificationReq
    TokenExpirationMinutes := p.TokenExpirationMinutes
    AuditLogRetentionDays := p.AuditLogRetentionDays
    Settings := p.Settings
    UpdatedAt := now }

/-- The effect of `UPDATE … WHERE id = $1` on the table. -/
def updateRows (rows : List GlobalSettings) (id : String) (p : GlobalSettings) (now : Nat) :
    List GlobalSettings :=
  rows.map (fun r => if r.ID = id then setFields r p now else r)

/-- Records a statement in the log. -/
def issue (q : globalSettingsQueries) (s : Stmt) (w : World) : World :=
  { w with issued := w.issued ++ [{ handle := handleOf q, ctx := q.ctx, stmt := s }] }

/-- The call `QueryRowContext(ctx, selectQuery).Scan(…)`: the scanned row, or
`sql.ErrNoRows` when the table is empty, or the driver's error. -/
def querySelect (env : Env) (q : globalSettingsQueries) (w : World) :
    Except GoError GlobalSettings × World :=
  match env.stmt w.issued.length with
  | .fail msg => (.error (.driver msg), issue q .SELECT w)
  | .run _ =>
    match selectLatest w.rows with
    | none => (.error .ErrNoRows, issue q .SELECT w)
    | some r => (.ok r, issue q .SELECT w)

/-- Modelled from the spec: the column defaults of `global_settings` (the
schema migration is not among the sources); the store fills the creation and
the update time of an inserted row server-side, here both with `NOW()`.

The call `QueryRowContext(ctx, insertQuery, …).Scan(&created, &updated)`:
with `ON CONFLICT (id) DO NOTHING` nothing is inserted and no row is returned
when a row with that identifier exists, and `Scan` yields `sql.ErrNoRows`. -/
def queryInsert (env : Env) (q : globalSettingsQueries) (p : GlobalSettings) (w : World) :
    Except GoError (Nat × Nat) × World :=
  match env.stmt w.issued.length with
  | .fail msg => (.error (.driver msg), issue q .INSERT w)
  | .run now =>
    if w.rows.any (fun r => r.ID = p.ID) then
      (.error .ErrNoRows, issue q .INSERT w)
    else
      (.ok (now, now),
        { issue q .INSERT w with
          rows := w.rows ++ [{ p with CreatedAt := now, UpdatedAt := now }] })

/-- The call `QueryRowContext(ctx, updateQuery, id, …).Scan(&updated)`: every
row with the identifier is rewritten and the new update time returned;
`sql.ErrNoRows` when no row has the identifier. -/
def queryUpdate (env : Env) (q : globalSettingsQueries) (id : String) (p : GlobalSettings)
    (w : World) : Except GoError Nat × World :=
  match env.stmt w.issued.length with
  | .fail msg => (.error (.driver msg), issue q .UPDATE w)
  | .run now =>
    if w.rows.any (fun r => r.ID = id) then
      (.ok now, { issue q .UPDATE w with rows := updateRows w.rows id p now })
    else
      (.error .ErrNoRows, issue q .UPDATE w)

/-! ## The operations -/

/-- The literal `models.GlobalSettings{ID: "default", …}` at the top of
`CreateDefaultGlobalSettings`; the timestamps are the zero value. -/
def defaultSettings : GlobalSettings :=
  { ID := "default"
    MaintenanceMode := false
    MaintenanceMessage := ""
    MaxUsersPerOrganization := 1000
    MaxSessionDuration := 480
    PasswordMinLength := 8
    RequireMFA := false
    AllowRegistration := true
    EmailVerificationReq := true
    TokenExpirationMinutes := 60
    AuditLogRetentionDays := 90
    Settings := "\x7b\x7d"
    CreatedAt := 0
    UpdatedAt := 0 }

/-- The result of an operation: `(*models.GlobalSettings, error)` and the
state it leaves. -/
abbrev Result := Except GoError GlobalSettings × World

mutual
/-- The method `GetGlobalSettings`.  `fuel` bounds the depth of the mutual
calls between fetch and create-default; `none` means the bound was reached. -/
def GetGlobalSettings (env : Env) (q : globalSettingsQueries) : Nat → World → Option Result
  | 0, _ => none
  | fuel + 1, w =>
    match querySelect env q w with
    | (.error err, w1) =>
      if err = GoError.ErrNoRows then
        CreateDefaultGlobalSettings env q fuel w1
      else
        some (.error (.wrap "failed to get global settings: " err), w1)
    | (.ok settings, w1) => some (.ok settings, w1)
/-- The method `CreateDefaultGlobalSettings`. -/
def CreateDefaultGlobalSettings (env : Env) (q : globalSettingsQueries) :
    Nat → World → Option Result
  | 0, _ => none
  | fuel + 1, w =>
    match queryInsert env q defaultSettings w with
    | (.error err, w1) =>
      if err.Error = "no rows in result set" then
        GetGlobalSettings env q fuel w1
      else
        some (.error (.wrap "failed to create default global settings: " err), w1)
    | (.ok (created, updated), w1) =>
      some (.ok { defaultSettings with CreatedAt := created, UpdatedAt := updated }, w1)
end

/-- The block `if q.redis != nil { _ = q.redis.Del(q.ctx, "global_settings").Err() }`:
the deletion is issued, its error is dropped. -/
def clearCache (env : Env) (q : globalSettingsQueries) (w : World) : World :=
  match q.redis with
  | some c =>
    { w with
      cache := w.cache ++
        [{ client := c, ctx := q.ctx, key := "global_settings",
           err := env.del "global_settings" }] }
  | none => w

/-- The method `UpdateGlobalSettings`. -/
def UpdateGlobalSettings (env : Env) (q : globalSettingsQueries) (fuel : Nat)
    (settings : GlobalSettings) (w : World) : Option Result :=
  match GetGlobalSettings env q fuel w with
  | none => none
  | some (.error err, w1) => some (.error (.wrap "failed to get current settings: " err), w1)
  | some (.ok current, w1) =>
    match queryUpdate env q current.ID settings w1 with
    | (.error err, w2) => some (.error (.wrap "failed to update global settings: " err), w2)
    | (.ok updated, w2) =>
      let settings1 := { settings with UpdatedAt := updated }
      let settings2 := { settings1 with ID := current.ID, CreatedAt := current.CreatedAt }
      some (.ok settings2, clearCache env q w2)

/-! ## Concrete stores used below -/

/-- The empty table with empty logs. -/
def emptyWorld : World := { rows := [], issued := [], cache := [] }

/-- An environment in which every statement runs at clock value `t` and cache
deletions succeed. -/
def envAt (t : Nat) : Env := { stmt := fun _ => .run t, del := fun _ => none }

/-- The table holding only the default row, created at `c` and last updated
at `u`, with empty logs. -/
def storeWithDefault (c u : Nat) : World :=
  { rows := [{ defaultSettings with CreatedAt := c, UpdatedAt := u }], issued := [], cache := [] }

/-- An update request: maintenance switched on with a message, the other
policy fields as in the defaults, and an identifier and timestamps of the
caller's own choosing. -/
def maintenanceInput : GlobalSettings :=
  { defaultSettings with
    ID := "caller-chosen"
    MaintenanceMode := true
    MaintenanceMessage := "down for maintenance"
    CreatedAt := 99
    UpdatedAt := 77 }

/-- A repository on connection 1 with cache client 2, bound to transaction 7. -/
def txRepo : globalSettingsQueries := WithTx (NewGlobalSettingsQueries 1 (some 2)) (some 7)

/-- The entity an update with `maintenanceInput` returns for the default row
created at `c` when the UPDATE runs at `u`. -/
def updatedRow (c u : Nat) : GlobalSettings :=
  { maintenanceInput with ID := "default", CreatedAt := c, UpdatedAt := u }

/-- The state after `txRepo` updated `storeWithDefault 3 3` with
`maintenanceInput`, the UPDATE running at clock value `u` and the cache
deletion coming back with `err`. -/
def afterUpdate (u : Nat) (err : Option String) : World :=
  { rows := [updatedRow 3 u]
    issued := [{ handle := .tx 7, ctx := 0, stmt := .SELECT },
               { handle := .tx 7, ctx := 0, stmt := .UPDATE }]
    cache := [{ client := 2, ctx := 0, key := "global_settings", err := err }] }

/-- The state after `txRepo` updated the empty table with `maintenanceInput`,
every statement running at clock value 5: the default row was created and
then updated. -/
def afterCreateUpdate : World :=
  { rows := [updatedRow 5 5]
    issued := [{ handle := .tx 7, ctx := 0, stmt := .SELECT },
               { handle := .tx 7, ctx := 0, stmt := .INSERT },
               { handle := .tx 7, ctx := 0, stmt := .UPDATE }]
    cache := [{ client := 2, ctx := 0, key := "global_settings", err := none }] }

/-- The log of `w2` continues the log of `w` with statements that were all
issued on the handle and under the context of `q`, and the cache log is the
same. -/
def Extends (q : globalSettingsQueries) (w w2 : World) : Prop :=
  w2.cache = w.cache ∧
    ∃ ext : List Issued, w2.issued = w.issued ++ ext ∧
      ∀ i ∈ ext, i.handle = handleOf q ∧ i.ctx = q.ctx

/-- What a fetch or a create-default leaves when it started on the empty
table: an error that does not hide `sql.ErrNoRows` and still no row, or the
default row as the only row. -/
def FromEmpty (res : Except GoError GlobalSettings) (w2 : World) : Prop :=
  match res with
  | .error e => w2.rows = [] ∧ e.isNoRows = false
  | .ok r =>
    w2.rows = [r] ∧ ∃ t : Nat, r = { defaultSettings with CreatedAt := t, UpdatedAt := t }

/-! ## Facts about the store model -/

theorem selectLatest_eq_none (rows : List GlobalSettings) :
    selectLatest rows = none ↔ rows = [] := by
  cases rows with
  | nil => simp [selectLatest]
  | cons r rest =>
    simp only [selectLatest]
    cases selectLatest rest with
    | none => simp
    | some r2 => by_cases h : r.CreatedAt < r2.CreatedAt <;> simp [h]

theorem selectLatest_spec (rows : List GlobalSettings) (r : GlobalSettings)
    (h : selectLatest rows = some r) :
    r ∈ rows ∧ ∀ x ∈ rows, x.CreatedAt ≤ r.CreatedAt := by
  induction rows generalizing r with
  | nil => simp [selectLatest] at h
  | cons a rest ih =>
    simp only [selectLatest] at h
    cases hrest : selectLatest rest with
    | none =>
      rw [hrest] at h
      have hnil : rest = [] := (selectLatest_eq_none rest).1 hrest
      simp at h
      subst h
      subst hnil
      simp
    | some r2 =>
      rw [hrest] at h
      obtain ⟨hmem, hmax⟩ := ih r2 hrest
      by_cases hlt : a.CreatedAt < r2.CreatedAt
      · simp [hlt] at h
        subst h
        refine ⟨List.mem_cons_of_mem _ hmem, ?_⟩
        intro x hx
        rcases List.mem_cons.1 hx with hx | hx
        · subst hx; exact Nat.le_of_lt hlt
        · exact hmax x hx
      · simp [hlt] at h
        subst h
        refine ⟨List.mem_cons_self _ _, ?_⟩
        intro x hx
        rcases List.mem_cons.1 hx with hx | hx
        · subst hx; exact Nat.le_refl _
        · exact Nat.le_trans (hmax x hx) (Nat.le_of_not_lt hlt)

theorem issue_rows (q : globalSettingsQueries) (s : Stmt) (w : World) :
    (issue q s w).rows = w.rows := rfl

theorem issue_cache (q : globalSettingsQueries) (s : Stmt) (w : World) :
    (issue q s w).cache = w.cache := rfl

theorem issue_issued (q : globalSettingsQueries) (s : Stmt) (w : World) :
    (issue q s w).issued = w.issued ++ [{ handle := handleOf q, ctx := q.ctx, stmt := s }] := rfl

theorem noRows_message_ne : GoError.ErrNoRows.Error ≠ "no rows in result set" := by decide

/-! ## One step of each operation -/

theorem get_fail (env : Env) (q : globalSettingsQueries) (fuel : Nat) (w : World) (msg : String)
    (h : env.stmt w.issued.length = .fail msg) :
    GetGlobalSettings env q (fuel + 1) w =
      some (.error (.wrap "failed to get global settings: " (.driver msg)), issue q .SELECT w) := by
  simp [GetGlobalSettings, querySelect, h]

theorem get_found (env : Env) (q : globalSettingsQueries) (fuel : Nat) (w : World) (t : Nat)
    (r : GlobalSettings) (h : env.stmt w.issued.length = .run t)
    (hr : selectLatest w.rows = some r) :
    GetGlobalSettings env q (fuel + 1) w = some (.ok r, issue q .SELECT w) := by
  simp [GetGlobalSettings, querySelect, h, hr]

theorem get_empty (env : Env) (q : globalSettingsQueries) (fuel : Nat) (w : World) (t : Nat)
    (h : env.stmt w.issued.length = .run t) (hr : w.rows = []) :
    GetGlobalSettings env q (fuel + 1) w =
      CreateDefaultGlobalSettings env q fuel (issue q .SELECT w) := by
  simp [GetGlobalSettings, querySelect, h, hr, selectLatest]

theorem create_fail (env : Env) (q : globalSettingsQueries) (fuel : Nat) (w : World)
    (msg : String) (h : env.stmt w.issued.length = .fail msg)
    (hmsg : msg ≠ "no rows in result set") :
    CreateDefaultGlobalSettings env q (fuel + 1) w =
      some (.error (.wrap "failed to create default global settings: " (.driver msg)),
        issue q .INSERT w) := by
  simp [CreateDefaultGlobalSettings, queryInsert, h, GoError.Error, hmsg]

theorem create_fallback (env : Env) (q : globalSettingsQueries) (fuel : Nat) (w : World)
    (h : env.stmt w.issued.length = .fail "no rows in result set") :
    CreateDefaultGlobalSettings env q (fuel + 1) w =
      GetGlobalSettings env q fuel (issue q .INSERT w) := by
  simp [CreateDefaultGlobalSettings, queryInsert, h, GoError.Error]

theorem create_conflict (env : Env) (q : globalSettingsQueries) (fuel : Nat) (w : World)
    (t : Nat) (h : env.stmt w.issued.length = .run t)
    (hex : w.rows.any (fun r => r.ID = "default") = true) :
    CreateDefaultGlobalSettings env q (fuel + 1) w =
      some (.error (.wrap "failed to create default global settings: " .ErrNoRows),
        issue q .INSERT w) := by
  have hex2 : w.rows.any (fun r => r.ID = defaultSettings.ID) = true := hex
  simp only [CreateDefaultGlobalSettings, queryInsert, h, hex2, if_true]
  simp [noRows_message_ne]

theorem create_insert (env : Env) (q : globalSettingsQueries) (fuel : Nat) (w : World)
    (t : Nat) (h : env.stmt w.issued.length = .run t)
    (hex : w.rows.any (fun r => r.ID = "default") = false) :
    CreateDefaultGlobalSettings env q (fuel + 1) w =
      some (.ok { defaultSettings with CreatedAt := t, UpdatedAt := t },
        { issue q .INSERT w with
          rows := w.rows ++ [{ defaultSettings with CreatedAt := t, UpdatedAt := t }] }) := by
  have hex2 : w.rows.any (fun r => r.ID = defaultSettings.ID) = false := hex
  simp only [CreateDefaultGlobalSettings, queryInsert, h, hex2]
  simp

/-! ## Invariants of the mutual calls -/

theorem extends_issue (q : globalSettingsQueries) (s : Stmt) (w : World) :
    Extends q w (issue q s w) := by
  refine ⟨rfl, [{ handle := handleOf q, ctx := q.ctx, stmt := s }], rfl, ?_⟩
  intro i hi
  simp at hi
  subst hi
  exact ⟨rfl, rfl⟩

theorem extends_trans (q : globalSettingsQueries) (w1 w2 w3 : World)
    (h12 : Extends q w1 w2) (h23 : Extends q w2 w3) : Extends q w1 w3 := by
  obtain ⟨hc12, e12, hi12, ha12⟩ := h12
  obtain ⟨hc23, e23, hi23, ha23⟩ := h23
  refine ⟨hc23.trans hc12, e12 ++ e23, ?_, ?_⟩
  · rw [hi23, hi12, List.append_assoc]
  · intro i hi
    rcases List.mem_append.1 hi with hi | hi
    · exact ha12 i hi
    · exact ha23 i hi

/-- Both operations only append statements issued on the handle of `q`, and
never touch the cache. -/
theorem get_create_extends (env : Env) (q : globalSettingsQueries) (fuel : Nat) :
    ∀ (w : World) (res : Except GoError GlobalSettings) (w2 : World),
      (GetGlobalSettings env q fuel w = some (res, w2) → Extends q w w2) ∧
      (CreateDefaultGlobalSettings env q fuel w = some (res, w2) → Extends q w w2) := by
  induction fuel with
  | zero =>
    intro w res w2
    constructor <;> intro h <;> simp [GetGlobalSettings, CreateDefaultGlobalSettings] at h
  | succ f ih =>
    intro w res w2
    constructor
    · intro h
      cases hs : env.stmt w.issued.length with
      | fail msg =>
        rw [get_fail env q f w msg hs] at h
        simp only [Option.some.injEq, Prod.mk.injEq] at h
        rw [← h.2]
        exact extends_issue q _ w
      | run t =>
        cases hr : selectLatest w.rows with
        | some r =>
          rw [get_found env q f w t r hs hr] at h
          simp only [Option.some.injEq, Prod.mk.injEq] at h
          rw [← h.2]
          exact extends_issue q _ w
        | none =>
          rw [get_empty env q f w t hs ((selectLatest_eq_none _).1 hr)] at h
          exact extends_trans q _ _ _ (extends_issue q _ w) ((ih _ res w2).2 h)
    · intro h
      cases hs : env.stmt w.issued.length with
      | fail msg =>
        by_cases hmsg : msg = "no rows in result set"
        · subst hmsg
          rw [create_fallback env q f w hs] at h
          exact extends_trans q _ _ _ (extends_issue q _ w) ((ih _ res w2).1 h)
        · rw [create_fail env q f w msg hs hmsg] at h
          simp only [Option.some.injEq, Prod.mk.injEq] at h
          rw [← h.2]
          exact extends_issue q _ w
      | run t =>
        cases hex : w.rows.any (fun r => decide (r.ID = "default")) with
        | true =>
          rw [create_conflict env q f w t hs hex] at h
          simp only [Option.some.injEq, Prod.mk.injEq] at h
          rw [← h.2]
          exact extends_issue q _ w
        | false =>
          rw [create_insert env q f w t hs hex] at h
          simp only [Option.some.injEq, Prod.mk.injEq] at h
          rw [← h.2]
          exact ⟨rfl, [{ handle := handleOf q, ctx := q.ctx, stmt := .INSERT }], rfl,
            by intro i hi; simp at hi; subst hi; exact ⟨rfl, rfl⟩⟩

/-- Started on the empty table, both operations end with the default row as
the only row, or with an error and no row. -/
theorem get_create_fromEmpty (env : Env) (q : globalSettingsQueries) (fuel : Nat) :
    ∀ (w : World) (res : Except GoError GlobalSettings) (w2 : World), w.rows = [] →
      (GetGlobalSettings env q fuel w = some (res, w2) → FromEmpty res w2) ∧
      (CreateDefaultGlobalSettings env q fuel w = some (res, w2) → FromEmpty res w2) := by
  induction fuel with
  | zero =>
    intro w res w2 _
    constructor <;> intro h <;> simp [GetGlobalSettings, CreateDefaultGlobalSettings] at h
  | succ f ih =>
    intro w res w2 hw
    constructor
    · intro h
      cases hs : env.stmt w.issued.length with
      | fail msg =>
        rw [get_fail env q f w msg hs] at h
        simp only [Option.some.injEq, Prod.mk.injEq] at h
        rw [← h.1, ← h.2]
        exact ⟨hw, rfl⟩
      | run t =>
        rw [get_empty env q f w t hs hw] at h
        exact (ih _ res w2 (by rw [issue_rows]; exact hw)).2 h
    · intro h
      cases hs : env.stmt w.issued.length with
      | fail msg =>
        by_cases hmsg : msg = "no rows in result set"
        · subst hmsg
          rw [create_fallback env q f w hs] at h
          exact (ih _ res w2 (by rw [issue_rows]; exact hw)).1 h
        · rw [create_fail env q f w msg hs hmsg] at h
          simp only [Option.some.injEq, Prod.mk.injEq] at h
          rw [← h.1, ← h.2]
          exact ⟨hw, rfl⟩
      | run t =>
        have hex : w.rows.any (fun r => decide (r.ID = "default")) = false := by
          rw [hw]; rfl
        rw [create_insert env q f w t hs hex] at h
        simp only [Option.some.injEq, Prod.mk.injEq] at h
        rw [← h.1, ← h.2]
        refine ⟨?_, t, rfl⟩
        simp [hw, issue]

/-! ## Fetch on an empty store -/

/-- C1: on a store with no rows on which no statement fails,
`GetGlobalSettings` returns the entity with identifier "default" and the
fixed default values, leaves exactly that one row in the table, and a second
`GetGlobalSettings` on the resulting store returns an entity with the same
identifier and the same creation time, the table still holding that one
row. -/
theorem getGlobalSettings_empty_store_defaults (env : Env) (q : globalSettingsQueries)
    (w : World) (fuel fuel2 : Nat) (hrows : w.rows = [])
    (hok : ∀ n : Nat, ∃ t : Nat, env.stmt n = .run t) :
    ∃ (r : GlobalSettings) (w1 : World),
      GetGlobalSettings env q (fuel + 2) w = some (.ok r, w1) ∧
      r.ID = "default" ∧ r.MaintenanceMode = false ∧ r.MaintenanceMessage = "" ∧
      r.MaxUsersPerOrganization = 1000 ∧ r.MaxSessionDuration = 480 ∧
      r.PasswordMinLength = 8 ∧ r.RequireMFA = false ∧ r.AllowRegistration = true ∧
      r.EmailVerificationReq = true ∧ r.TokenExpirationMinutes = 60 ∧
      r.AuditLogRetentionDays = 90 ∧ r.Settings = "\x7b\x7d" ∧
      w1.rows = [r] ∧
      ∃ (r2 : GlobalSettings) (w2 : World),
        GetGlobalSettings env q (fuel2 + 1) w1 = some (.ok r2, w2) ∧
        r2.ID = r.ID ∧ r2.CreatedAt = r.CreatedAt ∧ w2.rows = [r] := by
  obtain ⟨t0, h0⟩ := hok w.issued.length
  obtain ⟨t1, h1⟩ := hok (issue q .SELECT w).issued.length
  have hex : (issue q .SELECT w).rows.any (fun r => decide (r.ID = "default")) = false := by
    rw [issue_rows, hrows]; rfl
  have hget : GetGlobalSettings env q (fuel + 2) w =
      some (.ok { defaultSettings with CreatedAt := t1, UpdatedAt := t1 },
        { issue q .INSERT (issue q .SELECT w) with
          rows := (issue q .SELECT w).rows ++
            [{ defaultSettings with CreatedAt := t1, UpdatedAt := t1 }] }) := by
    rw [get_empty env q (fuel + 1) w t0 h0 hrows, create_insert env q fuel _ t1 h1 hex]
  refine ⟨_, _, hget, rfl, rfl, rfl, rfl, rfl, rfl, rfl, rfl, rfl, rfl, rfl, rfl, ?_, ?_⟩
  · simp [issue_rows, hrows]
  · obtain ⟨t2, h2⟩ := hok (issue q .INSERT (issue q .SELECT w)).issued.length
    refine ⟨{ defaultSettings with CreatedAt := t1, UpdatedAt := t1 }, _,
      get_found env q fuel2 _ t2 _ h2 ?_, rfl, rfl, ?_⟩
    · simp [issue_rows, hrows, selectLatest]
    · simp [issue_rows, hrows]

/-- Witness for C1: the empty table, every statement running at clock value 5,
a repository on connection 1 without cache. -/
theorem getGlobalSettings_empty_store_defaults_witness :
    emptyWorld.rows = [] ∧ (∀ n : Nat, ∃ t : Nat, (envAt 5).stmt n = .run t) ∧
    ∃ (r : GlobalSettings) (w1 : World),
      GetGlobalSettings (envAt 5) (NewGlobalSettingsQueries 1 none) (0 + 2) emptyWorld =
        some (.ok r, w1) ∧
      r.ID = "default" ∧ r.MaintenanceMode = false ∧ r.MaintenanceMessage = "" ∧
      r.MaxUsersPerOrganization = 1000 ∧ r.MaxSessionDuration = 480 ∧
      r.PasswordMinLength = 8 ∧ r.RequireMFA = false ∧ r.AllowRegistration = true ∧
      r.EmailVerificationReq = true ∧ r.TokenExpirationMinutes = 60 ∧
      r.AuditLogRetentionDays = 90 ∧ r.Settings = "\x7b\x7d" ∧
      w1.rows = [r] ∧
      ∃ (r2 : GlobalSettings) (w2 : World),
        GetGlobalSettings (envAt 5) (NewGlobalSettingsQueries 1 none) (0 + 1) w1 =
          some (.ok r2, w2) ∧
        r2.ID = r.ID ∧ r2.CreatedAt = r.CreatedAt ∧ w2.rows = [r] :=
  ⟨rfl, fun _ => ⟨5, rfl⟩,
    getGlobalSettings_empty_store_defaults (envAt 5) (NewGlobalSettingsQueries 1 none)
      emptyWorld 0 0 rfl (fun _ => ⟨5, rfl⟩)⟩

/-! ## Create-default on a store that has the default row -/

/-- C3: evaluation of two `CreateDefaultGlobalSettings` calls in succession on
the empty table, every statement running (at clock value `t`).  The first
call inserts and returns the default row.  The second call inserts nothing,
the table keeps exactly that one row, but the call does not return the row: it
returns the error "failed to create default global settings: sql: no rows in
result set". -/
theorem createDefault_twice_second_call_errors (q : globalSettingsQueries) (t fuel fuel2 : Nat) :
    ∃ (r : GlobalSettings) (w1 w2 : World),
      CreateDefaultGlobalSettings (envAt t) q (fuel + 1) emptyWorld = some (.ok r, w1) ∧
      w1.rows = [r] ∧ r.ID = "default" ∧
      CreateDefaultGlobalSettings (envAt t) q (fuel2 + 1) w1 =
        some (.error (.wrap "failed to create default global settings: " .ErrNoRows), w2) ∧
      (GoError.wrap "failed to create default global settings: " .ErrNoRows).Error =
        "failed to create default global settings: sql: no rows in result set" ∧
      w2.rows = [r] := by
  refine ⟨{ defaultSettings with CreatedAt := t, UpdatedAt := t }, _, _,
    create_insert (envAt t) q fuel emptyWorld t rfl rfl, rfl, rfl,
    create_conflict (envAt t) q fuel2 _ t rfl rfl, by decide, rfl⟩

/-- C4: on every store that contains a row with identifier "default", when the
INSERT statement runs, `CreateDefaultGlobalSettings` inserts nothing and
returns an error: the `sql.ErrNoRows` of the empty result, whose message is
"sql: no rows in result set", does not pass the test against "no rows in
result set", so the call does not fall back to the fetch and returns the
wrapped "failed to create default global settings" error. -/
theorem createDefault_existing_default_errors (env : Env) (q : globalSettingsQueries)
    (fuel : Nat) (w : World) (t : Nat)
    (hex : w.rows.any (fun r => decide (r.ID = "default")) = true)
    (hrun : env.stmt w.issued.length = .run t) :
    ∃ w2 : World,
      CreateDefaultGlobalSettings env q (fuel + 1) w =
        some (.error (.wrap "failed to create default global settings: " .ErrNoRows), w2) ∧
      w2.rows = w.rows ∧
      w2.issued = w.issued ++ [{ handle := handleOf q, ctx := q.ctx, stmt := .INSERT }] ∧
      (GoError.wrap "failed to create default global settings: " .ErrNoRows).isNoRows = true ∧
      (GoError.wrap "failed to create default global settings: " .ErrNoRows).Error =
        "failed to create default global settings: sql: no rows in result set" :=
  ⟨issue q .INSERT w, create_conflict env q fuel w t hrun hex, rfl, rfl, rfl, by decide⟩

/-- Witness for C4: the table holding the default row created at 3, a
repository bound to transaction 7, the INSERT running at clock value 5. -/
theorem createDefault_existing_default_errors_witness :
    (storeWithDefault 3 3).rows.any (fun r => decide (r.ID = "default")) = true ∧
    (envAt 5).stmt (storeWithDefault 3 3).issued.length = .run 5 ∧
    ∃ w2 : World,
      CreateDefaultGlobalSettings (envAt 5) (WithTx (NewGlobalSettingsQueries 1 none) (some 7))
          (0 + 1) (storeWithDefault 3 3) =
        some (.error (.wrap "failed to create default global settings: " .ErrNoRows), w2) ∧
      w2.rows = (storeWithDefault 3 3).rows ∧
      w2.issued = (storeWithDefault 3 3).issued ++
        [{ handle := handleOf (WithTx (NewGlobalSettingsQueries 1 none) (some 7)),
           ctx := (WithTx (NewGlobalSettingsQueries 1 none) (some 7)).ctx, stmt := .INSERT }] ∧
      (GoError.wrap "failed to create default global settings: " .ErrNoRows).isNoRows = true ∧
      (GoError.wrap "failed to create default global settings: " .ErrNoRows).Error =
        "failed to create default global settings: sql: no rows in result set" :=
  ⟨rfl, rfl,
    createDefault_existing_default_errors (envAt 5)
      (WithTx (NewGlobalSettingsQueries 1 none) (some 7)) 0 (storeWithDefault 3 3) 5 rfl rfl⟩

/-! ## Update -/

theorem clearCache_rows (env : Env) (q : globalSettingsQueries) (w : World) :
    (clearCache env q w).rows = w.rows := by
  unfold clearCache; cases q.redis <;> rfl

theorem clearCache_issued (env : Env) (q : globalSettingsQueries) (w : World) :
    (clearCache env q w).issued = w.issued := by
  unfold clearCache; cases q.redis <;> rfl

/-- A successful update went through a successful fetch and an UPDATE
statement that ran and matched a row. -/
theorem update_ok_inv (env : Env) (q : globalSettingsQueries) (fuel : Nat)
    (s : GlobalSettings) (w : World) (r : GlobalSettings) (w3 : World)
    (h : UpdateGlobalSettings env q fuel s w = some (.ok r, w3)) :
    ∃ (cur : GlobalSettings) (w1 : World) (now : Nat),
      GetGlobalSettings env q fuel w = some (.ok cur, w1) ∧
      env.stmt w1.issued.length = .run now ∧
      w1.rows.any (fun x => decide (x.ID = cur.ID)) = true ∧
      r = { s with UpdatedAt := now, ID := cur.ID, CreatedAt := cur.CreatedAt } ∧
      w3 = clearCache env q
        { issue q .UPDATE w1 with rows := updateRows w1.rows cur.ID s now } := by
  unfold UpdateGlobalSettings at h
  cases hg : GetGlobalSettings env q fuel w with
  | none => rw [hg] at h; simp at h
  | some p =>
    obtain ⟨res, w1⟩ := p
    rw [hg] at h
    cases res with
    | error e => simp at h
    | ok cur =>
      simp only [queryUpdate] at h
      cases hs : env.stmt w1.issued.length with
      | fail msg => rw [hs] at h; simp at h
      | run now =>
        rw [hs] at h
        cases hany : w1.rows.any (fun x => decide (x.ID = cur.ID)) with
        | false => simp [hany] at h
        | true =>
          simp only [hany, if_true, Option.some.injEq, Prod.mk.injEq, Except.ok.injEq] at h
          exact ⟨cur, w1, now, rfl, hs, hany, h.1.symm, h.2.symm⟩

/-- A failed update failed in the fetch or in the UPDATE statement, and in
both cases returns before the cache is touched. -/
theorem update_error_inv (env : Env) (q : globalSettingsQueries) (fuel : Nat)
    (s : GlobalSettings) (w : World) (e : GoError) (w3 : World)
    (h : UpdateGlobalSettings env q fuel s w = some (.error e, w3)) :
    (∃ e0 : GoError, GetGlobalSettings env q fuel w = some (.error e0, w3) ∧
        e = .wrap "failed to get current settings: " e0) ∨
    (∃ (cur : GlobalSettings) (w1 : World) (e0 : GoError),
        GetGlobalSettings env q fuel w = some (.ok cur, w1) ∧
        w3 = issue q .UPDATE w1 ∧ e = .wrap "failed to update global settings: " e0) := by
  unfold UpdateGlobalSettings at h
  cases hg : GetGlobalSettings env q fuel w with
  | none => rw [hg] at h; simp at h
  | some p =>
    obtain ⟨res, w1⟩ := p
    rw [hg] at h
    cases res with
    | error e0 =>
      simp only [Option.some.injEq, Prod.mk.injEq, Except.error.injEq] at h
      exact Or.inl ⟨e0, by rw [h.2], h.1.symm⟩
    | ok cur =>
      right
      simp only [queryUpdate] at h
      cases hs : env.stmt w1.issued.length with
      | fail msg =>
        rw [hs] at h
        simp only [Option.some.injEq, Prod.mk.injEq, Except.error.injEq] at h
        exact ⟨cur, w1, _, rfl, h.2.symm, h.1.symm⟩
      | run now =>
        rw [hs] at h
        cases hany : w1.rows.any (fun x => decide (x.ID = cur.ID)) with
        | false =>
          simp only [hany, Bool.false_eq_true, if_false, Option.some.injEq, Prod.mk.injEq,
            Except.error.injEq] at h
          exact ⟨cur, w1, _, rfl, h.2.symm, h.1.symm⟩
        | true => simp [hany] at h

/-- On a table with rows, a fetch that returns an entity returns the selected
row after the single SELECT statement. -/
theorem get_ok_nonempty (env : Env) (q : globalSettingsQueries) (fuel : Nat) (w : World)
    (row cur : GlobalSettings) (w1 : World) (hrow : selectLatest w.rows = some row)
    (h : GetGlobalSettings env q fuel w = some (.ok cur, w1)) :
    cur = row ∧ w1 = issue q .SELECT w := by
  cases fuel with
  | zero => simp [GetGlobalSettings] at h
  | succ f =>
    cases hs : env.stmt w.issued.length with
    | fail msg =>
      rw [get_fail env q f w msg hs] at h
      simp at h
    | run t =>
      rw [get_found env q f w t row hs hrow] at h
      simp only [Option.some.injEq, Prod.mk.injEq, Except.ok.injEq] at h
      exact ⟨h.1.symm, h.2.symm⟩

/-- C2: when `UpdateGlobalSettings` succeeds, the returned entity carries the
identifier and the creation time of the record the preliminary fetch returned
(on a table with rows, the selected row: a row of the table whose creation
time is the greatest), whatever the input carried there, and every policy
field and the extension blob are those of the input. -/
theorem updateGlobalSettings_keeps_identity (env : Env) (q : globalSettingsQueries) (fuel : Nat)
    (s : GlobalSettings) (w : World) (r : GlobalSettings) (w3 : World)
    (h : UpdateGlobalSettings env q fuel s w = some (.ok r, w3)) :
    ∃ (cur : GlobalSettings) (w1 : World),
      GetGlobalSettings env q fuel w = some (.ok cur, w1) ∧
      r.ID = cur.ID ∧ r.CreatedAt = cur.CreatedAt ∧
      (w.rows ≠ [] → selectLatest w.rows = some cur ∧ cur ∈ w.rows ∧
        ∀ x ∈ w.rows, x.CreatedAt ≤ cur.CreatedAt) ∧
      r.MaintenanceMode = s.MaintenanceMode ∧
      r.MaintenanceMessage = s.MaintenanceMessage ∧
      r.MaxUsersPerOrganization = s.MaxUsersPerOrganization ∧
      r.MaxSessionDuration = s.MaxSessionDuration ∧
      r.PasswordMinLength = s.PasswordMinLength ∧
      r.RequireMFA = s.RequireMFA ∧
      r.AllowRegistration = s.AllowRegistration ∧
      r.EmailVerificationReq = s.EmailVerificationReq ∧
      r.TokenExpirationMinutes = s.TokenExpirationMinutes ∧
      r.AuditLogRetentionDays = s.AuditLogRetentionDays ∧
      r.Settings = s.Settings := by
  obtain ⟨cur, w1, now, hget, _, _, hr, _⟩ := update_ok_inv env q fuel s w r w3 h
  subst hr
  refine ⟨cur, w1, hget, rfl, rfl, ?_, rfl, rfl, rfl, rfl, rfl, rfl, rfl, rfl, rfl, rfl, rfl⟩
  intro hne
  cases hsel : selectLatest w.rows with
  | none => exact absurd ((selectLatest_eq_none _).1 hsel) hne
  | some row =>
    obtain ⟨hcur, _⟩ := get_ok_nonempty env q fuel w row cur w1 hsel hget
    subst hcur
    exact ⟨rfl, selectLatest_spec _ _ hsel⟩

/-- Witness for C2: the default row created at 3, updated by `txRepo` with an
input that carries the identifier "caller-chosen" and creation time 99. -/
theorem updateGlobalSettings_keeps_identity_witness :
    UpdateGlobalSettings (envAt 5) txRepo 1 maintenanceInput (storeWithDefault 3 3) =
      some (.ok (updatedRow 3 5), afterUpdate 5 none) ∧
    ∃ (cur : GlobalSettings) (w1 : World),
      GetGlobalSettings (envAt 5) txRepo 1 (storeWithDefault 3 3) = some (.ok cur, w1) ∧
      (updatedRow 3 5).ID = cur.ID ∧ (updatedRow 3 5).CreatedAt = cur.CreatedAt ∧
      ((storeWithDefault 3 3).rows ≠ [] →
        selectLatest (storeWithDefault 3 3).rows = some cur ∧
        cur ∈ (storeWithDefault 3 3).rows ∧
        ∀ x ∈ (storeWithDefault 3 3).rows, x.CreatedAt ≤ cur.CreatedAt) ∧
      (updatedRow 3 5).MaintenanceMode = maintenanceInput.MaintenanceMode ∧
      (updatedRow 3 5).MaintenanceMessage = maintenanceInput.MaintenanceMessage ∧
      (updatedRow 3 5).MaxUsersPerOrganization = maintenanceInput.MaxUsersPerOrganization ∧
      (updatedRow 3 5).MaxSessionDuration = maintenanceInput.MaxSessionDuration ∧
      (updatedRow 3 5).PasswordMinLength = maintenanceInput.PasswordMinLength ∧
      (updatedRow 3 5).RequireMFA = maintenanceInput.RequireMFA ∧
      (updatedRow 3 5).AllowRegistration = maintenanceInput.AllowRegistration ∧
      (updatedRow 3 5).EmailVerificationReq = maintenanceInput.EmailVerificationReq ∧
      (updatedRow 3 5).TokenExpirationMinutes = maintenanceInput.TokenExpirationMinutes ∧
      (updatedRow 3 5).AuditLogRetentionDays = maintenanceInput.AuditLogRetentionDays ∧
      (updatedRow 3 5).Settings = maintenanceInput.Settings :=
  ⟨rfl, updateGlobalSettings_keeps_identity (envAt 5) txRepo 1 maintenanceInput
    (storeWithDefault 3 3) (updatedRow 3 5) (afterUpdate 5 none) rfl⟩

/-! ## The cache -/

/-- C5: an `UpdateGlobalSettings` call on a repository with a cache client
issues exactly one cache deletion, of the key "global_settings" on that
client, when it succeeds, and none when it fails; a repository without cache
client issues no cache operation. -/
theorem updateGlobalSettings_cache_deletions (env : Env) (q : globalSettingsQueries)
    (fuel : Nat) (s : GlobalSettings) (w : World) (res : Except GoError GlobalSettings)
    (w3 : World) (h : UpdateGlobalSettings env q fuel s w = some (res, w3)) :
    (∀ c : Nat, q.redis = some c →
      (∀ r : GlobalSettings, res = .ok r →
        w3.cache = w.cache ++
          [{ client := c, ctx := q.ctx, key := "global_settings",
             err := env.del "global_settings" }]) ∧
      (∀ e : GoError, res = .error e → w3.cache = w.cache)) ∧
    (q.redis = none → w3.cache = w.cache) := by
  have hfetch : ∀ (x : Except GoError GlobalSettings) (w1 : World),
      GetGlobalSettings env q fuel w = some (x, w1) → w1.cache = w.cache :=
    fun x w1 hg => ((get_create_extends env q fuel w x w1).1 hg).1
  have herr : ∀ e : GoError, res = .error e → w3.cache = w.cache := by
    intro e he
    subst he
    rcases update_error_inv env q fuel s w e w3 h with ⟨e0, hg, _⟩ | ⟨cur, w1, e0, hg, hw, _⟩
    · exact hfetch _ _ hg
    · rw [hw, issue_cache]; exact hfetch _ _ hg
  refine ⟨fun c hc => ⟨?_, herr⟩, ?_⟩
  · intro r hr
    subst hr
    obtain ⟨cur, w1, now, hg, _, _, _, hw⟩ := update_ok_inv env q fuel s w r w3 h
    rw [hw]
    simp only [clearCache, hc]
    rw [← hfetch _ _ hg]
    rfl
  · intro hnone
    cases res with
    | error e => exact herr e rfl
    | ok r =>
      obtain ⟨cur, w1, now, hg, _, _, _, hw⟩ := update_ok_inv env q fuel s w r w3 h
      rw [hw]
      simp only [clearCache, hnone]
      rw [← hfetch _ _ hg]
      rfl

/-- Witness for C5: the successful update of the default row by `txRepo`,
whose cache client is 2. -/
theorem updateGlobalSettings_cache_deletions_witness :
    UpdateGlobalSettings (envAt 5) txRepo 1 maintenanceInput (storeWithDefault 3 3) =
      some (.ok (updatedRow 3 5), afterUpdate 5 none) ∧
    ((∀ c : Nat, txRepo.redis = some c →
      (∀ r : GlobalSettings, Except.ok (ε := GoError) (updatedRow 3 5) = .ok r →
        (afterUpdate 5 none).cache = (storeWithDefault 3 3).cache ++
          [{ client := c, ctx := txRepo.ctx, key := "global_settings",
             err := (envAt 5).del "global_settings" }]) ∧
      (∀ e : GoError, Except.ok (ε := GoError) (updatedRow 3 5) = .error e →
        (afterUpdate 5 none).cache = (storeWithDefault 3 3).cache)) ∧
    (txRepo.redis = none → (afterUpdate 5 none).cache = (storeWithDefault 3 3).cache)) :=
  ⟨rfl, updateGlobalSettings_cache_deletions (envAt 5) txRepo 1 maintenanceInput
    (storeWithDefault 3 3) (.ok (updatedRow 3 5)) (afterUpdate 5 none) rfl⟩

/-- Neither operation looks at the cache client or at the cache. -/
theorem get_create_cache_irrelevant (env : Env) (q : globalSettingsQueries)
    (red : Option Nat) (del : String → Option String) (fuel : Nat) :
    ∀ w : World,
      GetGlobalSettings { env with del := del } { q with redis := red } fuel w =
        GetGlobalSettings env q fuel w ∧
      CreateDefaultGlobalSettings { env with del := del } { q with redis := red } fuel w =
        CreateDefaultGlobalSettings env q fuel w := by
  induction fuel with
  | zero => intro w; simp [GetGlobalSettings, CreateDefaultGlobalSettings]
  | succ f ih =>
    intro w
    constructor
    · simp only [GetGlobalSettings, querySelect, issue, handleOf]
      cases env.stmt w.issued.length with
      | fail msg => simp
      | run t =>
        cases selectLatest w.rows with
        | none => simp only [if_true]; exact (ih _).2
        | some r => rfl
    · simp only [CreateDefaultGlobalSettings, queryInsert, issue, handleOf]
      cases env.stmt w.issued.length with
      | fail msg =>
        by_cases hmsg : (GoError.driver msg).Error = "no rows in result set"
        · simp only [hmsg, if_true]; exact (ih _).1
        · simp only [hmsg, if_false]
      | run t =>
        cases w.rows.any (fun r => decide (r.ID = defaultSettings.ID)) with
        | true => simp [noRows_message_ne]
        | false => simp

/-- C6: the result of `UpdateGlobalSettings` (entity or error), the table it
leaves and the statements it issues are the same whatever the cache client
(none or any client) and whatever the cache deletion comes back with (success
or any error). -/
theorem updateGlobalSettings_independent_of_cache (env : Env) (q : globalSettingsQueries)
    (fuel : Nat) (s : GlobalSettings) (w : World) (red : Option Nat)
    (del : String → Option String) :
    (UpdateGlobalSettings { env with del := del } { q with redis := red } fuel s w).map
        (fun x => (x.1, x.2.rows, x.2.issued)) =
      (UpdateGlobalSettings env q fuel s w).map (fun x => (x.1, x.2.rows, x.2.issued)) := by
  unfold UpdateGlobalSettings
  rw [(get_create_cache_irrelevant env q red del fuel w).1]
  cases GetGlobalSettings env q fuel w with
  | none => rfl
  | some p =>
    obtain ⟨res, w1⟩ := p
    cases res with
    | error e => rfl
    | ok cur =>
      simp only [queryUpdate, issue, handleOf]
      cases env.stmt w1.issued.length with
      | fail msg => rfl
      | run now =>
        cases w1.rows.any (fun x => decide (x.ID = cur.ID)) with
        | false => rfl
        | true =>
          simp only [if_true, Option.map_some', clearCache_rows, clearCache_issued]

/-! ## The update timestamp -/

/-- C7, as stated, fails: inside one transaction `NOW()` is the same for every
statement.  The default row was last updated at clock value 5; an update
issued by `txRepo` while the clock still reads 5 succeeds and returns, and
stores, the update timestamp 5, which is not greater than the prior one. -/
theorem updateGlobalSettings_timestamp_can_stay :
    selectLatest (storeWithDefault 5 5).rows =
      some { defaultSettings with CreatedAt := 5, UpdatedAt := 5 } ∧
    UpdateGlobalSettings (envAt 5) txRepo 1 maintenanceInput (storeWithDefault 5 5) =
      some (.ok (updatedRow 5 5),
        { afterUpdate 5 none with rows := [updatedRow 5 5] }) ∧
    ¬ ({ defaultSettings with CreatedAt := 5, UpdatedAt := 5 } : GlobalSettings).UpdatedAt <
        (updatedRow 5 5).UpdatedAt :=
  ⟨rfl, rfl, by decide⟩

/-- C7, amended: on a table with rows, after a successful
`UpdateGlobalSettings` the update timestamp of the returned entity, and of
every stored row carrying its identifier, is the value `NOW()` had when the
UPDATE statement (the second statement of the call) ran; it is strictly
greater than the update timestamp the selected record had before the call
exactly when that clock value is. -/
theorem updateGlobalSettings_timestamp_is_clock (env : Env) (q : globalSettingsQueries)
    (fuel : Nat) (s : GlobalSettings) (w : World) (r : GlobalSettings) (w3 : World)
    (prior : GlobalSettings) (now : Nat)
    (hprior : selectLatest w.rows = some prior)
    (h : UpdateGlobalSettings env q fuel s w = some (.ok r, w3))
    (hnow : env.stmt (w.issued.length + 1) = .run now) :
    r.UpdatedAt = now ∧
    (∀ x ∈ w3.rows, x.ID = r.ID → x.UpdatedAt = now) ∧
    (prior.UpdatedAt < r.UpdatedAt ↔ prior.UpdatedAt < now) := by
  obtain ⟨cur, w1, now2, hget, hs, _, hr, hw⟩ := update_ok_inv env q fuel s w r w3 h
  obtain ⟨_, hw1⟩ := get_ok_nonempty env q fuel w prior cur w1 hprior hget
  have hlen : w1.issued.length = w.issued.length + 1 := by
    rw [hw1, issue_issued]; simp
  rw [hlen, hnow] at hs
  have hnn : now = now2 := by injection hs
  subst hnn
  subst hr
  refine ⟨rfl, ?_, Iff.rfl⟩
  intro x hx hid
  rw [hw, clearCache_rows] at hx
  simp only [updateRows, List.mem_map] at hx
  obtain ⟨y, _, hy⟩ := hx
  by_cases hyc : y.ID = cur.ID
  · rw [if_pos hyc] at hy
    rw [← hy]; rfl
  · rw [if_neg hyc] at hy
    subst hy
    exact absurd hid hyc

/-- Witness for C7, amended: the default row last updated at 3, the statements
of the update running at clock value 5. -/
theorem updateGlobalSettings_timestamp_is_clock_witness :
    selectLatest (storeWithDefault 3 3).rows =
      some { defaultSettings with CreatedAt := 3, UpdatedAt := 3 } ∧
    UpdateGlobalSettings (envAt 5) txRepo 1 maintenanceInput (storeWithDefault 3 3) =
      some (.ok (updatedRow 3 5), afterUpdate 5 none) ∧
    (envAt 5).stmt ((storeWithDefault 3 3).issued.length + 1) = .run 5 ∧
    ((updatedRow 3 5).UpdatedAt = 5 ∧
      (∀ x ∈ (afterUpdate 5 none).rows, x.ID = (updatedRow 3 5).ID → x.UpdatedAt = 5) ∧
      (({ defaultSettings with CreatedAt := 3, UpdatedAt := 3 } : GlobalSettings).UpdatedAt <
          (updatedRow 3 5).UpdatedAt ↔
        ({ defaultSettings with CreatedAt := 3, UpdatedAt := 3 } : GlobalSettings).UpdatedAt <
          5)) :=
  ⟨rfl, rfl, rfl,
    updateGlobalSettings_timestamp_is_clock (envAt 5) txRepo 1 maintenanceInput
      (storeWithDefault 3 3) (updatedRow 3 5) (afterUpdate 5 none)
      { defaultSettings with CreatedAt := 3, UpdatedAt := 3 } 5 rfl rfl rfl⟩

/-! ## Update returns -/

/-- On a table with rows, when the SELECT and the UPDATE run, the update
returns an entity at call depth 1. -/
theorem update_returns_nonempty (env : Env) (q : globalSettingsQueries) (fuel : Nat)
    (s : GlobalSettings) (w : World) (t1 t2 : Nat) (hne : w.rows ≠ [])
    (h1 : env.stmt w.issued.length = .run t1)
    (h2 : env.stmt (w.issued.length + 1) = .run t2) :
    ∃ (r : GlobalSettings) (w3 : World),
      UpdateGlobalSettings env q (fuel + 1) s w = some (.ok r, w3) := by
  cases hsel : selectLatest w.rows with
  | none => exact absurd ((selectLatest_eq_none _).1 hsel) hne
  | some row =>
    have hmem := (selectLatest_spec _ _ hsel).1
    have hany : (issue q .SELECT w).rows.any (fun x => decide (x.ID = row.ID)) = true := by
      rw [issue_rows, List.any_eq_true]
      exact ⟨row, hmem, by simp⟩
    have hlen : (issue q .SELECT w).issued.length = w.issued.length + 1 := by
      rw [issue_issued]; simp
    unfold UpdateGlobalSettings
    rw [get_found env q fuel w t1 row h1 hsel]
    simp only [queryUpdate, hlen, h2, hany, if_true]
    exact ⟨_, _, rfl⟩

/-- On the empty table, when every statement runs, the update returns an
entity at call depth 2. -/
theorem update_returns_empty (env : Env) (q : globalSettingsQueries) (fuel : Nat)
    (s : GlobalSettings) (w : World) (hnil : w.rows = [])
    (hok : ∀ n : Nat, ∃ t : Nat, env.stmt n = .run t) :
    ∃ (r : GlobalSettings) (w3 : World),
      UpdateGlobalSettings env q (fuel + 2) s w = some (.ok r, w3) := by
  obtain ⟨t0, h0⟩ := hok w.issued.length
  obtain ⟨t1, h1⟩ := hok (issue q .SELECT w).issued.length
  have hex : (issue q .SELECT w).rows.any (fun r => decide (r.ID = "default")) = false := by
    rw [issue_rows, hnil]; rfl
  obtain ⟨t2, h2⟩ := hok
    ({ issue q .INSERT (issue q .SELECT w) with
        rows := (issue q .SELECT w).rows ++
          [{ defaultSettings with CreatedAt := t1, UpdatedAt := t1 }] } : World).issued.length
  unfold UpdateGlobalSettings
  rw [get_empty env q (fuel + 1) w t0 h0 hnil, create_insert env q fuel _ t1 h1 hex]
  simp only [queryUpdate, h2]
  simp only [issue_rows, hnil, List.nil_append, List.any_cons, List.any_nil, decide_True,
    Bool.or_false, if_true]
  exact ⟨_, _, rfl⟩

/-! ## Update creates no second record -/

/-- C8: on a table with rows, a successful `UpdateGlobalSettings` leaves the
list of row identifiers as it was; row by row, identifier and creation time
stay, a row whose identifier is not that of the selected (most recently
created) row is unchanged, and a row with that identifier gets the policy
fields and extension blob of the input and the returned update timestamp.
On the empty table the call ends with at most one row, and when it succeeds
with exactly one row, the returned one, whose identifier is "default".  The
call does succeed when its statements run: at call depth 1 on a table with
rows, at call depth 2 on the empty table. -/
theorem updateGlobalSettings_no_second_record (env : Env) (q : globalSettingsQueries)
    (fuel : Nat) (s : GlobalSettings) (w : World) (res : Except GoError GlobalSettings)
    (w3 : World) (h : UpdateGlobalSettings env q fuel s w = some (res, w3)) :
    (w.rows ≠ [] → ∀ r : GlobalSettings, res = .ok r →
      ∃ cur : GlobalSettings, selectLatest w.rows = some cur ∧
        w3.rows.map (fun x => x.ID) = w.rows.map (fun x => x.ID) ∧
        List.Forall₂
          (fun old new =>
            new.ID = old.ID ∧ new.CreatedAt = old.CreatedAt ∧
            (old.ID ≠ cur.ID → new = old) ∧
            (old.ID = cur.ID → new = setFields old s r.UpdatedAt))
          w.rows w3.rows) ∧
    (w.rows = [] → w3.rows.length ≤ 1 ∧
      ∀ r : GlobalSettings, res = .ok r → w3.rows = [r] ∧ r.ID = "default") ∧
    (w.rows ≠ [] → ∀ (depth t1 t2 : Nat), env.stmt w.issued.length = .run t1 →
      env.stmt (w.issued.length + 1) = .run t2 →
      ∃ (r : GlobalSettings) (w4 : World),
        UpdateGlobalSettings env q (depth + 1) s w = some (.ok r, w4)) ∧
    (w.rows = [] → ∀ depth : Nat, (∀ n : Nat, ∃ t : Nat, env.stmt n = .run t) →
      ∃ (r : GlobalSettings) (w4 : World),
        UpdateGlobalSettings env q (depth + 2) s w = some (.ok r, w4)) := by
  refine ⟨?_, ?_,
    fun hne depth t1 t2 h1 h2 => update_returns_nonempty env q depth s w t1 t2 hne h1 h2,
    fun hnil depth hok => update_returns_empty env q depth s w hnil hok⟩
  · intro hne r hres
    subst hres
    obtain ⟨cur, w1, now, hget, _, _, hr, hw⟩ := update_ok_inv env q fuel s w r w3 h
    cases hsel : selectLatest w.rows with
    | none => exact absurd ((selectLatest_eq_none _).1 hsel) hne
    | some row =>
      obtain ⟨hcur, hw1⟩ := get_ok_nonempty env q fuel w row cur w1 hsel hget
      subst hcur
      have hrows : w3.rows = updateRows w.rows cur.ID s now := by
        rw [hw, clearCache_rows, hw1]; rfl
      have hup : r.UpdatedAt = now := by rw [hr]
      refine ⟨cur, rfl, ?_, ?_⟩
      · rw [hrows, updateRows, List.map_map]
        apply List.map_congr_left
        intro x _
        by_cases hx : x.ID = cur.ID
        · simp [hx, setFields]
        · simp [hx]
      · rw [hrows, hup, updateRows, List.forall₂_map_right_iff, List.forall₂_same]
        intro x _
        by_cases hx : x.ID = cur.ID
        · simp [hx, setFields]
        · simp [hx]
  · intro hnil
    cases res with
    | error e =>
      refine ⟨?_, fun r hr => by cases hr⟩
      rcases update_error_inv env q fuel s w e w3 h with ⟨e0, hg, _⟩ | ⟨cur, w1, e0, hg, hw, _⟩
      · have hfe := (get_create_fromEmpty env q fuel w _ w3 hnil).1 hg
        simp only [FromEmpty] at hfe
        rw [hfe.1]; simp
      · have hfe := (get_create_fromEmpty env q fuel w _ w1 hnil).1 hg
        simp only [FromEmpty] at hfe
        rw [hw, issue_rows, hfe.1]; simp
    | ok r =>
      obtain ⟨cur, w1, now, hget, _, _, hr, hw⟩ := update_ok_inv env q fuel s w r w3 h
      have hfe := (get_create_fromEmpty env q fuel w _ w1 hnil).1 hget
      simp only [FromEmpty] at hfe
      obtain ⟨hrows1, t, hcur⟩ := hfe
      have hrows : w3.rows = [r] := by
        rw [hw, clearCache_rows]
        simp only [updateRows, hrows1, List.map_cons, List.map_nil, if_true]
        rw [hr]; rfl
      refine ⟨by rw [hrows]; simp, ?_⟩
      intro r2 hr2
      cases hr2
      refine ⟨hrows, ?_⟩
      rw [hr, hcur]; rfl

/-- Witness for C8: the update of the default row by `txRepo`. -/
theorem updateGlobalSettings_no_second_record_witness :
    UpdateGlobalSettings (envAt 5) txRepo 1 maintenanceInput (storeWithDefault 3 3) =
      some (.ok (updatedRow 3 5), afterUpdate 5 none) ∧
    ((storeWithDefault 3 3).rows ≠ [] → ∀ r : GlobalSettings,
        Except.ok (ε := GoError) (updatedRow 3 5) = .ok r →
      ∃ cur : GlobalSettings, selectLatest (storeWithDefault 3 3).rows = some cur ∧
        (afterUpdate 5 none).rows.map (fun x => x.ID) =
          (storeWithDefault 3 3).rows.map (fun x => x.ID) ∧
        List.Forall₂
          (fun old new =>
            new.ID = old.ID ∧ new.CreatedAt = old.CreatedAt ∧
            (old.ID ≠ cur.ID → new = old) ∧
            (old.ID = cur.ID → new = setFields old maintenanceInput r.UpdatedAt))
          (storeWithDefault 3 3).rows (afterUpdate 5 none).rows) ∧
    (UpdateGlobalSettings (envAt 5) txRepo 2 maintenanceInput emptyWorld =
      some (.ok (updatedRow 5 5), afterCreateUpdate) ∧
    (emptyWorld.rows = [] → afterCreateUpdate.rows.length ≤ 1 ∧
      ∀ r : GlobalSettings, Except.ok (ε := GoError) (updatedRow 5 5) = .ok r →
        afterCreateUpdate.rows = [r] ∧ r.ID = "default")) :=
  ⟨rfl, (updateGlobalSettings_no_second_record (envAt 5) txRepo 1 maintenanceInput
      (storeWithDefault 3 3) (.ok (updatedRow 3 5)) (afterUpdate 5 none) rfl).1,
    rfl, (updateGlobalSettings_no_second_record (envAt 5) txRepo 2 maintenanceInput
      emptyWorld (.ok (updatedRow 5 5)) afterCreateUpdate rfl).2.1⟩

/-! ## Transaction binding -/

/-- An update only appends statements issued on the handle of `q`. -/
theorem update_extends_issued (env : Env) (q : globalSettingsQueries) (fuel : Nat)
    (s : GlobalSettings) (w : World) (res : Except GoError GlobalSettings) (w3 : World)
    (h : UpdateGlobalSettings env q fuel s w = some (res, w3)) :
    ∃ ext : List Issued, w3.issued = w.issued ++ ext ∧
      ∀ i ∈ ext, i.handle = handleOf q ∧ i.ctx = q.ctx := by
  have hstep : ∀ (x : Except GoError GlobalSettings) (w1 w4 : World),
      GetGlobalSettings env q fuel w = some (x, w1) →
      w4.issued = (issue q .UPDATE w1).issued →
      ∃ ext : List Issued, w4.issued = w.issued ++ ext ∧
        ∀ i ∈ ext, i.handle = handleOf q ∧ i.ctx = q.ctx := by
    intro x w1 w4 hg h4
    obtain ⟨_, ext, hext, hall⟩ :=
      extends_trans q _ _ _ ((get_create_extends env q fuel w x w1).1 hg)
        (extends_issue q .UPDATE w1)
    exact ⟨ext, by rw [h4, hext], hall⟩
  cases res with
  | error e =>
    rcases update_error_inv env q fuel s w e w3 h with ⟨e0, hg, _⟩ | ⟨cur, w1, e0, hg, hw, _⟩
    · exact ((get_create_extends env q fuel w _ w3).1 hg).2
    · exact hstep _ w1 w3 hg (by rw [hw])
  | ok r =>
    obtain ⟨cur, w1, now, hg, _, _, _, hw⟩ := update_ok_inv env q fuel s w r w3 h
    exact hstep _ w1 w3 hg (by rw [hw, clearCache_issued])

/-- C9: for a repository obtained by `WithTx`, every statement that
`GetGlobalSettings`, `CreateDefaultGlobalSettings` or `UpdateGlobalSettings`
issues, nested calls included, goes to the transaction handle when a
transaction was given, and to the connection of the original repository when
none was; the instance `WithTx` returns has the connection, context and cache
client of the original, which is itself not changed. -/
theorem withTx_statements_on_bound_handle (env : Env) (q : globalSettingsQueries)
    (tx : Option Nat) (fuel : Nat) (s : GlobalSettings) (w : World)
    (res : Except GoError GlobalSettings) (w2 : World)
    (h : GetGlobalSettings env (WithTx q tx) fuel w = some (res, w2) ∨
      CreateDefaultGlobalSettings env (WithTx q tx) fuel w = some (res, w2) ∨
      UpdateGlobalSettings env (WithTx q tx) fuel s w = some (res, w2)) :
    (∃ ext : List Issued, w2.issued = w.issued ++ ext ∧
      (∀ t : Nat, tx = some t → ∀ i ∈ ext, i.handle = Handle.tx t) ∧
      (tx = none → ∀ i ∈ ext, i.handle = Handle.db q.db)) ∧
    (WithTx q tx).tx = tx ∧ (WithTx q tx).db = q.db ∧ (WithTx q tx).ctx = q.ctx ∧
    (WithTx q tx).redis = q.redis := by
  have hext : ∃ ext : List Issued, w2.issued = w.issued ++ ext ∧
      ∀ i ∈ ext, i.handle = handleOf (WithTx q tx) ∧ i.ctx = (WithTx q tx).ctx := by
    rcases h with h | h | h
    · exact ((get_create_extends env _ fuel w res w2).1 h).2
    · exact ((get_create_extends env _ fuel w res w2).2 h).2
    · exact update_extends_issued env _ fuel s w res w2 h
  obtain ⟨ext, hiss, hall⟩ := hext
  refine ⟨⟨ext, hiss, ?_, ?_⟩, rfl, rfl, rfl, rfl⟩
  · intro t ht i hi
    subst ht
    exact (hall i hi).1
  · intro ht i hi
    subst ht
    exact (hall i hi).1

/-- Witness for C9: the update of the empty table by a repository bound to
transaction 7, whose three statements (SELECT, INSERT, UPDATE) are all issued
on that transaction. -/
theorem withTx_statements_on_bound_handle_witness :
    (GetGlobalSettings (envAt 5) (WithTx (NewGlobalSettingsQueries 1 (some 2)) (some 7)) 2
        emptyWorld = some (.ok (updatedRow 5 5), afterCreateUpdate) ∨
      CreateDefaultGlobalSettings (envAt 5) (WithTx (NewGlobalSettingsQueries 1 (some 2)) (some 7))
        2 emptyWorld = some (.ok (updatedRow 5 5), afterCreateUpdate) ∨
      UpdateGlobalSettings (envAt 5) (WithTx (NewGlobalSettingsQueries 1 (some 2)) (some 7)) 2
        maintenanceInput emptyWorld = some (.ok (updatedRow 5 5), afterCreateUpdate)) ∧
    ((∃ ext : List Issued, afterCreateUpdate.issued = emptyWorld.issued ++ ext ∧
      (∀ t : Nat, some 7 = some t → ∀ i ∈ ext, i.handle = Handle.tx t) ∧
      (some 7 = none → ∀ i ∈ ext, i.handle = Handle.db (NewGlobalSettingsQueries 1 (some 2)).db)) ∧
    (WithTx (NewGlobalSettingsQueries 1 (some 2)) (some 7)).tx = some 7 ∧
    (WithTx (NewGlobalSettingsQueries 1 (some 2)) (some 7)).db =
      (NewGlobalSettingsQueries 1 (some 2)).db ∧
    (WithTx (NewGlobalSettingsQueries 1 (some 2)) (some 7)).ctx =
      (NewGlobalSettingsQueries 1 (some 2)).ctx ∧
    (WithTx (NewGlobalSettingsQueries 1 (some 2)) (some 7)).redis =
      (NewGlobalSettingsQueries 1 (some 2)).redis) :=
  ⟨Or.inr (Or.inr rfl),
    withTx_statements_on_bound_handle (envAt 5) (NewGlobalSettingsQueries 1 (some 2)) (some 7) 2
      maintenanceInput emptyWorld (.ok (updatedRow 5 5)) afterCreateUpdate
      (Or.inr (Or.inr rfl))⟩

/-! ## Fetch never reports "not found" -/

/-- An error returned by a fetch never is, nor wraps, `sql.ErrNoRows`. -/
theorem get_error_not_noRows (env : Env) (q : globalSettingsQueries) (fuel : Nat) (w : World)
    (e : GoError) (w2 : World) (h : GetGlobalSettings env q fuel w = some (.error e, w2)) :
    e.isNoRows = false := by
  cases fuel with
  | zero => simp [GetGlobalSettings] at h
  | succ f =>
    cases hs : env.stmt w.issued.length with
    | fail msg =>
      rw [get_fail env q f w msg hs] at h
      simp only [Option.some.injEq, Prod.mk.injEq, Except.error.injEq] at h
      rw [← h.1]; rfl
    | run t =>
      cases hr : selectLatest w.rows with
      | some r =>
        rw [get_found env q f w t r hs hr] at h
        simp at h
      | none =>
        have hnil := (selectLatest_eq_none _).1 hr
        rw [get_empty env q f w t hs hnil] at h
        have hfe := (get_create_fromEmpty env q f (issue q .SELECT w) _ w2
          (by rw [issue_rows]; exact hnil)).2 h
        exact hfe.2

/-- C10: `GetGlobalSettings` never reports "not found".  When the SELECT runs
on a table without rows the call is the call of `CreateDefaultGlobalSettings`;
when it runs on a table with rows the call returns the selected row, a row of
greatest creation time, and no error; when the SELECT fails with a store
error the call returns that error behind the prefix "failed to get global
settings: ".  An error comes back only in that last case or out of the
default-creation, and it never is or wraps `sql.ErrNoRows`. -/
theorem getGlobalSettings_never_not_found (env : Env) (q : globalSettingsQueries)
    (fuel : Nat) (w : World) :
    (∀ t : Nat, env.stmt w.issued.length = .run t → w.rows = [] →
      GetGlobalSettings env q (fuel + 1) w =
        CreateDefaultGlobalSettings env q fuel (issue q .SELECT w)) ∧
    (∀ t : Nat, env.stmt w.issued.length = .run t → w.rows ≠ [] →
      ∃ row : GlobalSettings,
        GetGlobalSettings env q (fuel + 1) w = some (.ok row, issue q .SELECT w) ∧
        row ∈ w.rows ∧ ∀ x ∈ w.rows, x.CreatedAt ≤ row.CreatedAt) ∧
    (∀ msg : String, env.stmt w.issued.length = .fail msg →
      GetGlobalSettings env q (fuel + 1) w =
        some (.error (.wrap "failed to get global settings: " (.driver msg)),
          issue q .SELECT w) ∧
      (GoError.wrap "failed to get global settings: " (.driver msg)).Error =
        "failed to get global settings: " ++ msg) ∧
    (∀ (e : GoError) (w2 : World),
      GetGlobalSettings env q (fuel + 1) w = some (.error e, w2) →
      e.isNoRows = false ∧
      ((∃ msg : String, env.stmt w.issued.length = .fail msg ∧
          e = .wrap "failed to get global settings: " (.driver msg)) ∨
        (w.rows = [] ∧
          CreateDefaultGlobalSettings env q fuel (issue q .SELECT w) = some (.error e, w2)))) := by
  refine ⟨fun t hs hnil => get_empty env q fuel w t hs hnil, ?_,
    fun msg hs => ⟨get_fail env q fuel w msg hs, rfl⟩, ?_⟩
  · intro t hs hne
    cases hr : selectLatest w.rows with
    | none => exact absurd ((selectLatest_eq_none _).1 hr) hne
    | some row => exact ⟨row, get_found env q fuel w t row hs hr, selectLatest_spec _ _ hr⟩
  · intro e w2 h
    refine ⟨get_error_not_noRows env q (fuel + 1) w e w2 h, ?_⟩
    cases hs : env.stmt w.issued.length with
    | fail msg =>
      rw [get_fail env q fuel w msg hs] at h
      simp only [Option.some.injEq, Prod.mk.injEq, Except.error.injEq] at h
      exact Or.inl ⟨msg, rfl, h.1.symm⟩
    | run t =>
      cases hr : selectLatest w.rows with
      | some r =>
        rw [get_found env q fuel w t r hs hr] at h
        simp at h
      | none =>
        have hnil := (selectLatest_eq_none _).1 hr
        rw [get_empty env q fuel w t hs hnil] at h
        exact Or.inr ⟨hnil, h⟩

end Queries
